import Mathlib

/-!
Shallow embedding of the bounds-synchronization logic of the
`react-mapbox-minimap` control (`src/minimap.ts`).

Numbers (JS `number`) are modelled as rationals: every claim below is
about assignments, `Math.min`/`Math.max` clamps, and exact arithmetic on
small literals, all of which IEEE doubles perform exactly on the inputs
considered.

The repository ships two variants of `minimap.ts` whose only relevant
difference is `moveTrackingRect`: the variant in `src/src/minimap.ts`
does not touch the polygon coordinates at all, while the unnamed variant
(`src/unnamed/part_000`) calls `convertBoundsToPoints` on the translated
bounds *before* the clamping lines run.  We embed the latter (the one
the claims about polygon regeneration cite); where the two variants
agree the embedding is faithful to both.
-/

namespace Minimap

/-- A longitude/latitude pair, as mapbox `LngLat` objects (`.lng`, `.lat`). -/
structure LngLat where
  lng : ℚ
  lat : ℚ
  deriving DecidableEq, Repr

/-- Geographic bounds: `bounds._ne` and `bounds._sw` corners. -/
structure Bounds where
  ne : LngLat
  sw : LngLat
  deriving DecidableEq, Repr

/-- The `trackingRectCoordinates` ring: five points `trc[0][0]` … `trc[0][4]`,
each a `(lng, lat)` pair.  The source keeps them as a mutable
`number[][][]`; we keep the five slots as named fields and mirror the
slot-by-slot writes. -/
structure TrackingCoords where
  p0 : ℚ × ℚ
  p1 : ℚ × ℚ
  p2 : ℚ × ℚ
  p3 : ℚ × ℚ
  p4 : ℚ × ℚ
  deriving DecidableEq, Repr

/-- The five points of the ring, in index order. -/
def TrackingCoords.toList (t : TrackingCoords) : List (ℚ × ℚ) :=
  [t.p0, t.p1, t.p2, t.p3, t.p4]

/-- `convertBoundsToPoints(bounds)` — writes the ten coordinate slots of
`trackingRectCoordinates` in place, one component at a time:
NE, (SW.lng, NE.lat), SW, (NE.lng, SW.lat), NE. -/
def convertBoundsToPoints (bounds : Bounds) (trc : TrackingCoords) :
    TrackingCoords :=
  let trc := { trc with p0 := (bounds.ne.lng, trc.p0.2) }
  let trc := { trc with p0 := (trc.p0.1, bounds.ne.lat) }
  let trc := { trc with p1 := (bounds.sw.lng, trc.p1.2) }
  let trc := { trc with p1 := (trc.p1.1, bounds.ne.lat) }
  let trc := { trc with p2 := (bounds.sw.lng, trc.p2.2) }
  let trc := { trc with p2 := (trc.p2.1, bounds.sw.lat) }
  let trc := { trc with p3 := (bounds.ne.lng, trc.p3.2) }
  let trc := { trc with p3 := (trc.p3.1, bounds.sw.lat) }
  let trc := { trc with p4 := (bounds.ne.lng, trc.p4.2) }
  { trc with p4 := (trc.p4.1, bounds.ne.lat) }

/-- The four `-=` lines of `moveTrackingRect`: both corners shifted by
`-offset` (`offset = [dLng, dLat]`). -/
def translateBounds (b : Bounds) (offset : ℚ × ℚ) : Bounds :=
  { ne := { lng := b.ne.lng - offset.1, lat := b.ne.lat - offset.2 }
    sw := { lng := b.sw.lng - offset.1, lat := b.sw.lat - offset.2 } }

/-- The four clamping lines of `moveTrackingRect`:
`ne.lat = min(ne.lat, 90)`, `ne.lng = min(ne.lng, 180)`,
`sw.lat = max(sw.lat, -90)`, `sw.lng = max(sw.lng, -180)`. -/
def clampBounds (b : Bounds) : Bounds :=
  { ne := { lng := min b.ne.lng 180, lat := min b.ne.lat 90 }
    sw := { lng := max b.sw.lng (-180), lat := max b.sw.lat (-90) } }

/-- `moveTrackingRect(offset)` (variant of `src/unnamed/part_000`):
translate the stored bounds, regenerate the polygon from the translated
bounds via `convertBoundsToPoints`, then clamp the bounds; returns the
(clamped) bounds and the new polygon.  The polygon copies coordinate
values before the clamp lines mutate the bounds object, so it reflects
the unclamped translation. -/
def moveTrackingRect (b : Bounds) (offset : ℚ × ℚ) (trc : TrackingCoords) :
    Bounds × TrackingCoords :=
  let t := translateBounds b offset
  let trc2 := convertBoundsToPoints t trc
  (clampBounds t, trc2)

/-- The Geographic Bounds invariant of the spec: northeast latitude ≥
southwest latitude, longitudes within [-180, 180], latitudes within
[-90, 90]. -/
def boundsInvariant (b : Bounds) : Prop :=
  b.sw.lat ≤ b.ne.lat ∧
  -180 ≤ b.ne.lng ∧ b.ne.lng ≤ 180 ∧
  -180 ≤ b.sw.lng ∧ b.sw.lng ≤ 180 ∧
  -90 ≤ b.ne.lat ∧ b.ne.lat ≤ 90 ∧
  -90 ≤ b.sw.lat ∧ b.sw.lat ≤ 90

instance (b : Bounds) : Decidable (boundsInvariant b) := by
  unfold boundsInvariant; infer_instance

/-! ### Event-handler state machine

The mutable fields of the `Minimap` class that the drag logic touches,
and the calls it issues into the two map instances (recorded as a list
of effects, in issue order). -/

/-- Calls the handlers make into the main map or the inset map. -/
inductive Effect where
  /-- `source.setData(data)`: push polygon ring and stored bounds to the
  inset `trackingRect` source. -/
  | setData (trc : TrackingCoords) (b : Bounds)
  /-- `map.fitBounds(bounds, duration)` on the main map. -/
  | fitBounds (b : Bounds) (duration : ℚ)
  /-- `minimap.setZoom(z)` on the inset map. -/
  | setZoom (z : ℚ)
  /-- `map.off("move", onMainMapMove)`: detach the live-update listener. -/
  | offMove
  /-- `map.on("move", onMainMapMove)`: attach the live-update listener. -/
  | onMove
  deriving DecidableEq, Repr

/-- The drag-relevant mutable state of the `Minimap` instance. -/
structure MinimapState where
  isDragging : Bool
  isCursorOverFeature : Bool
  /-- `currentPoint`, a `[lng, lat]` pair. -/
  currentPoint : ℚ × ℚ
  /-- `previousPoint`, a `[lng, lat]` pair. -/
  previousPoint : ℚ × ℚ
  /-- `trackingRect._data.properties.bounds`. -/
  bounds : Bounds
  /-- `trackingRectCoordinates`. -/
  polygon : TrackingCoords
  /-- The inset map's zoom. -/
  insetZoom : ℚ
  /-- Whether `onMainMapMove` is currently attached to the main map's
  `move` event (attached once in `load`). -/
  moveListenerAttached : Bool
  deriving DecidableEq, Repr

/-- `mouseDown(e)`: if the cursor-over flag is set, start a drag,
shift `currentPoint` into `previousPoint` and store the event's
`lngLat` as `currentPoint`. -/
def mouseDown (s : MinimapState) (p : ℚ × ℚ) : MinimapState :=
  if s.isCursorOverFeature then
    { s with
      isDragging := true
      previousPoint := s.currentPoint
      currentPoint := p }
  else s

/-- `mouseMove(e)`: refresh the cursor-over flag from the hit test
(`over` is whether `queryRenderedFeatures` returned any feature of the
`trackingRectFill` layer at `e.point`); if dragging, compute
`offset = previousPoint - currentPoint` with the points rotated, run
`moveTrackingRect(offset)` (which pushes `setData`), and unless
`disableMinimapMoveOnDrag` is set, `fitBounds` the main map with an
80 ms transition. -/
def mouseMove (s : MinimapState) (p : ℚ × ℚ) (over : Bool)
    (disableMinimapMoveOnDrag : Bool) : MinimapState × List Effect :=
  let s1 := { s with isCursorOverFeature := over }
  if s1.isDragging then
    let prev := s1.currentPoint
    let offset := (prev.1 - p.1, prev.2 - p.2)
    let moved := moveTrackingRect s1.bounds offset s1.polygon
    let s2 := { s1 with
      previousPoint := prev
      currentPoint := p
      bounds := moved.1
      polygon := moved.2 }
    (s2,
      Effect.setData moved.2 moved.1 ::
        if disableMinimapMoveOnDrag then []
        else [Effect.fitBounds moved.1 80])
  else (s1, [])

/-- `mouseUp()`: if dragging, clear the flag, detach the main map's
`move` listener, and `fitBounds` the main map to the stored bounds with
a 500 ms transition.  The source never re-attaches the listener. -/
def mouseUp (s : MinimapState) : MinimapState × List Effect :=
  if s.isDragging then
    ({ s with isDragging := false, moveListenerAttached := false },
      [Effect.offMove, Effect.fitBounds s.bounds 500])
  else (s, [])

/-- `zoomAdjust()` + `setTrackingRectBounds()` as called from
`update()` when not dragging: set inset zoom to main zoom plus the
configured offset, store the main map's bounds, regenerate the polygon,
and push both to the inset source. -/
def update (s : MinimapState) (primaryZoom : ℚ) (primaryBounds : Bounds)
    (zoomLevelOffset : ℚ) : MinimapState × List Effect :=
  if s.isDragging then (s, [])
  else
    let z := primaryZoom + zoomLevelOffset
    let trc := convertBoundsToPoints primaryBounds s.polygon
    ({ s with insetZoom := z, bounds := primaryBounds, polygon := trc },
      [Effect.setZoom z, Effect.setData trc primaryBounds])

/-- Pointer events delivered to the inset map's handlers.  A `move`
carries the geo point and the hit-test result for that point. -/
inductive PointerEvent where
  | move (p : ℚ × ℚ) (over : Bool)
  | down (p : ℚ × ℚ)
  | up
  deriving DecidableEq, Repr

/-- One pointer event dispatched to its handler (state part only). -/
def pointerStep (disableMinimapMoveOnDrag : Bool) (s : MinimapState) :
    PointerEvent → MinimapState
  | .move p over => (mouseMove s p over disableMinimapMoveOnDrag).1
  | .down p => mouseDown s p
  | .up => (mouseUp s).1

/-- A sequence of pointer events, in callback-delivery order. -/
def pointerRun (d : Bool) (s : MinimapState) (es : List PointerEvent) :
    MinimapState :=
  es.foldl (pointerStep d) s

/-! ### Options -/

/-- The option fields of `MinimapOptions` relevant to the claims
(the default object literal of the constructor also carries id, sizes,
colors and style, which no claim touches numerically). -/
structure MinimapOptions where
  zoomLevelOffset : ℚ
  toggleDisplay : Bool
  dragPan : Bool
  scrollZoom : Bool
  boxZoom : Bool
  dragRotate : Bool
  keyboard : Bool
  doubleClickZoom : Bool
  touchZoomRotate : Bool
  disableMinimapMoveOnDrag : Bool
  enableResize : Bool
  enableMove : Bool
  deriving DecidableEq, Repr

/-- The defaults assigned to `this.options` in the constructor. -/
def defaultOptions : MinimapOptions :=
  { zoomLevelOffset := -3
    toggleDisplay := false
    dragPan := false
    scrollZoom := false
    boxZoom := false
    dragRotate := false
    keyboard := false
    doubleClickZoom := false
    touchZoomRotate := false
    disableMinimapMoveOnDrag := false
    enableResize := false
    enableMove := false }

/-- A user-supplied `config`: each field either present (`some`) or
absent (`none`). -/
structure MinimapConfig where
  zoomLevelOffset : Option ℚ
  toggleDisplay : Option Bool
  dragPan : Option Bool
  scrollZoom : Option Bool
  boxZoom : Option Bool
  dragRotate : Option Bool
  keyboard : Option Bool
  doubleClickZoom : Option Bool
  touchZoomRotate : Option Bool
  disableMinimapMoveOnDrag : Option Bool
  enableResize : Option Bool
  enableMove : Option Bool
  deriving DecidableEq, Repr

/-- The config with no field present (constructing without `config`). -/
def emptyConfig : MinimapConfig :=
  { zoomLevelOffset := none
    toggleDisplay := none
    dragPan := none
    scrollZoom := none
    boxZoom := none
    dragRotate := none
    keyboard := none
    doubleClickZoom := none
    touchZoomRotate := none
    disableMinimapMoveOnDrag := none
    enableResize := none
    enableMove := none }

/-- `Object.assign(this.options, config)`: every own property of
`config` overwrites the default; absent properties keep the default. -/
def mergeOptions (cfg : MinimapConfig) : MinimapOptions :=
  { zoomLevelOffset := cfg.zoomLevelOffset.getD defaultOptions.zoomLevelOffset
    toggleDisplay := cfg.toggleDisplay.getD defaultOptions.toggleDisplay
    dragPan := cfg.dragPan.getD defaultOptions.dragPan
    scrollZoom := cfg.scrollZoom.getD defaultOptions.scrollZoom
    boxZoom := cfg.boxZoom.getD defaultOptions.boxZoom
    dragRotate := cfg.dragRotate.getD defaultOptions.dragRotate
    keyboard := cfg.keyboard.getD defaultOptions.keyboard
    doubleClickZoom := cfg.doubleClickZoom.getD defaultOptions.doubleClickZoom
    touchZoomRotate := cfg.touchZoomRotate.getD defaultOptions.touchZoomRotate
    disableMinimapMoveOnDrag :=
      cfg.disableMinimapMoveOnDrag.getD defaultOptions.disableMinimapMoveOnDrag
    enableResize := cfg.enableResize.getD defaultOptions.enableResize
    enableMove := cfg.enableMove.getD defaultOptions.enableMove }

/-- The `interactions` array of `load()` paired with the option value
that guards each `minimap[interaction].disable()` call. -/
def interactionFlags (o : MinimapOptions) : List (String × Bool) :=
  [("dragPan", o.dragPan),
   ("scrollZoom", o.scrollZoom),
   ("boxZoom", o.boxZoom),
   ("dragRotate", o.dragRotate),
   ("keyboard", o.keyboard),
   ("doubleClickZoom", o.doubleClickZoom),
   ("touchZoomRotate", o.touchZoomRotate)]

/-- The inset interaction handlers `load()` disables: those whose
option is falsy. -/
def disabledInteractions (o : MinimapOptions) : List String :=
  ((interactionFlags o).filter (fun q => !q.2)).map Prod.fst

/-! ### Concrete fixtures for counterexamples and witnesses -/

/-- A tracking ring with every slot zeroed. -/
def zeroTrc : TrackingCoords :=
  ⟨(0, 0), (0, 0), (0, 0), (0, 0), (0, 0)⟩

/-- The spec's example bounds NE(10,10)/SW(-10,-10). -/
def exBounds : Bounds :=
  { ne := { lng := 10, lat := 10 }, sw := { lng := -10, lat := -10 } }

/-- A valid bounds close to the north pole: NE(0,88)/SW(-10,85). -/
def poleBounds : Bounds :=
  { ne := { lng := 0, lat := 88 }, sw := { lng := -10, lat := 85 } }

/-- A state holding bounds `b`, with the drag flag set as given, cursor
over the rectangle, both pointer records at the origin, zeroed ring. -/
def exState (b : Bounds) (dragging : Bool) : MinimapState :=
  { isDragging := dragging
    isCursorOverFeature := true
    currentPoint := (0, 0)
    previousPoint := (0, 0)
    bounds := b
    polygon := zeroTrc
    insetZoom := 0
    moveListenerAttached := true }

/-- A config that sets `zoomLevelOffset` and `scrollZoom`, leaving the
other fields absent. -/
def cfgEx : MinimapConfig :=
  { emptyConfig with zoomLevelOffset := some (-4), scrollZoom := some true }

/-! ### Helper lemmas -/

/-- How each pointer event moves the `isDragging` flag: `up` always
clears it, `down` sets it exactly when the cursor-over flag holds,
`move` leaves it alone. -/
theorem pointerStep_dragging_iff (d : Bool) (s : MinimapState)
    (e : PointerEvent) :
    (pointerStep d s e).isDragging = true ↔
      (s.isDragging = true ∧ e ≠ PointerEvent.up) ∨
      (s.isCursorOverFeature = true ∧ ∃ p, e = PointerEvent.down p) := by
  cases e with
  | move p over =>
    simp only [pointerStep, mouseMove]
    split <;> simp_all
  | down p =>
    simp only [pointerStep, mouseDown]
    split <;> simp_all
  | up =>
    simp only [pointerStep, mouseUp]
    split <;> simp_all

/-! ### Claim theorems -/

/-- C2: for every bounds `B` and every prior ring state, the ring
produced by `convertBoundsToPoints B` has exactly 5 points, its first
point equals its last, and the points in order are NE, (SW.lng, NE.lat),
SW, (NE.lng, SW.lat), NE. -/
theorem convertBoundsToPoints_ring (b : Bounds) (trc : TrackingCoords) :
    (convertBoundsToPoints b trc).toList =
      [(b.ne.lng, b.ne.lat), (b.sw.lng, b.ne.lat), (b.sw.lng, b.sw.lat),
        (b.ne.lng, b.sw.lat), (b.ne.lng, b.ne.lat)] ∧
    (convertBoundsToPoints b trc).toList.length = 5 ∧
    (convertBoundsToPoints b trc).toList.head? =
      (convertBoundsToPoints b trc).toList.getLast? :=
  ⟨rfl, rfl, rfl⟩

/-- C4: for every bounds, offset and ring, translating then clamping in
`moveTrackingRect` yields NE.lat ≤ 90, NE.lng ≤ 180, SW.lat ≥ -90 and
SW.lng ≥ -180 (the embedding is total, so no exception arises). -/
theorem moveTrackingRect_clamps (b : Bounds) (offset : ℚ × ℚ)
    (trc : TrackingCoords) :
    (moveTrackingRect b offset trc).1.ne.lat ≤ 90 ∧
    (moveTrackingRect b offset trc).1.ne.lng ≤ 180 ∧
    -90 ≤ (moveTrackingRect b offset trc).1.sw.lat ∧
    -180 ≤ (moveTrackingRect b offset trc).1.sw.lng :=
  ⟨min_le_right _ _, min_le_right _ _, le_max_right _ _, le_max_right _ _⟩

/-- C3, counterexample: starting from the valid bounds NE(0,88)/SW(-10,85)
and dragging south by 10° of latitude (offset (0,-10)),
`moveTrackingRect` produces bounds with NE.lat = 90 < 95 = SW.lat: the
Geographic Bounds invariant does not survive the drag translation plus
clamping. -/
theorem moveTrackingRect_pole_inversion :
    boundsInvariant poleBounds ∧
    ¬ boundsInvariant (moveTrackingRect poleBounds (0, -10) zeroTrc).1 ∧
    (moveTrackingRect poleBounds (0, -10) zeroTrc).1.ne.lat <
      (moveTrackingRect poleBounds (0, -10) zeroTrc).1.sw.lat := by
  norm_num [boundsInvariant, poleBounds, moveTrackingRect, translateBounds,
    clampBounds]

/-- C3, amended: the invariant is preserved by `moveTrackingRect`
whenever the translated bounds still satisfy it (the clamps are then the
identity); when translation pushes a corner past a pole or the
antimeridian the invariant can fail, as the counterexample shows. -/
theorem moveTrackingRect_preserves_invariant (b : Bounds) (offset : ℚ × ℚ)
    (trc : TrackingCoords)
    (ht : boundsInvariant (translateBounds b offset)) :
    boundsInvariant (moveTrackingRect b offset trc).1 := by
  obtain ⟨h1, h2, h3, h4, h5, h6, h7, h8, h9⟩ := ht
  simp only [moveTrackingRect, clampBounds, boundsInvariant] at *
  rw [min_eq_left h3, min_eq_left h7, max_eq_left h4, max_eq_left h8]
  exact ⟨h1, h2, h3, h4, h5, h6, h7, h8, h9⟩

/-- Witness for C3's amended theorem: the spec's own §8 example, bounds
NE(10,10)/SW(-10,-10) dragged by offset (5,0), stays within range and
keeps the invariant. -/
theorem moveTrackingRect_preserves_invariant_witness :
    boundsInvariant (translateBounds exBounds (5, 0)) ∧
    boundsInvariant (moveTrackingRect exBounds (5, 0) zeroTrc).1 := by
  have h : boundsInvariant (translateBounds exBounds (5, 0)) := by
    norm_num [boundsInvariant, translateBounds, exBounds]
  exact ⟨h, moveTrackingRect_preserves_invariant exBounds (5, 0) zeroTrc h⟩

/-- C1, counterexample: dragging the near-pole bounds NE(0,88)/SW(-10,85)
from geo point (0,0) to (0,10) (offset (0,-10)) makes `mouseMove` push a
polygon whose latitudes read 98/95, while the stored bounds are clamped
to 90/95: the pushed ring is not the ring of the translated-and-clamped
bounds, because `convertBoundsToPoints` runs before the clamp lines. -/
theorem mouseMove_polygon_not_from_clamped :
    (mouseMove (exState poleBounds true) (0, 10) true false).1.polygon.toList ≠
      (convertBoundsToPoints
        (mouseMove (exState poleBounds true) (0, 10) true false).1.bounds
        (exState poleBounds true).polygon).toList := by
  norm_num [mouseMove, exState, poleBounds, moveTrackingRect, translateBounds,
    clampBounds, convertBoundsToPoints, zeroTrc, TrackingCoords.toList]

/-- C1, amended: on every inset pointer move during an active drag,
`mouseMove` rotates the pointer records, computes
offset = previousGeoPoint − currentGeoPoint, regenerates the 5-point
ring from the *translated, unclamped* bounds, stores the clamped
translated bounds, and pushes that ring and those bounds to the inset
source. -/
theorem mouseMove_drag_translates (s : MinimapState) (p : ℚ × ℚ)
    (over d : Bool) (h : s.isDragging = true) :
    (mouseMove s p over d).1.previousPoint = s.currentPoint ∧
    (mouseMove s p over d).1.currentPoint = p ∧
    (mouseMove s p over d).1.bounds =
      clampBounds (translateBounds s.bounds
        (s.currentPoint.1 - p.1, s.currentPoint.2 - p.2)) ∧
    (mouseMove s p over d).1.polygon =
      convertBoundsToPoints (translateBounds s.bounds
        (s.currentPoint.1 - p.1, s.currentPoint.2 - p.2)) s.polygon ∧
    Effect.setData (mouseMove s p over d).1.polygon
        (mouseMove s p over d).1.bounds ∈ (mouseMove s p over d).2 := by
  simp [mouseMove, moveTrackingRect, h]

/-- Witness for C1's amended theorem at the dragging state over
NE(10,10)/SW(-10,-10) with a move to (5,5). -/
theorem mouseMove_drag_translates_witness :
    (exState exBounds true).isDragging = true ∧
    (mouseMove (exState exBounds true) (5, 5) true false).1.bounds =
      clampBounds (translateBounds (exState exBounds true).bounds
        ((exState exBounds true).currentPoint.1 - 5,
          (exState exBounds true).currentPoint.2 - 5)) :=
  ⟨rfl, (mouseMove_drag_translates (exState exBounds true) (5, 5) true false
    rfl).2.2.1⟩

/-- C5 (code bug): releasing the pointer during a drag clears the flag,
detaches the main map's `move` listener and fits the main map to the
stored bounds over 500 ms, but the handler never re-attaches the
listener: no `map.on("move", …)` call occurs in `mouseUp`. -/
theorem mouseUp_detaches_without_reattach :
    (mouseUp (exState exBounds true)).1.isDragging = false ∧
    (mouseUp (exState exBounds true)).1.moveListenerAttached = false ∧
    (mouseUp (exState exBounds true)).2 =
      [Effect.offMove, Effect.fitBounds exBounds 500] ∧
    Effect.onMove ∉ (mouseUp (exState exBounds true)).2 := by
  refine ⟨?_, ?_, ?_, ?_⟩
  · norm_num [mouseUp, exState]
  · norm_num [mouseUp, exState]
  · norm_num [mouseUp, exState]
  · intro hmem
    rw [mouseUp, exState] at hmem
    simp only [if_true, List.mem_cons, List.not_mem_nil, or_false] at hmem
    rcases hmem with h | h <;> exact Effect.noConfusion h

/-- C6, counterexample: a pointer-down at (5,5) over the rectangle, from
a state whose `currentPoint` is (0,0), records (5,5) as the current
point but (0,0) — the stale previous current point, not the event's
geo-coordinate — as the previous point. -/
theorem mouseDown_previousPoint_stale :
    (mouseDown (exState exBounds false) (5, 5)).isDragging = true ∧
    (mouseDown (exState exBounds false) (5, 5)).currentPoint = (5, 5) ∧
    (mouseDown (exState exBounds false) (5, 5)).previousPoint ≠ (5, 5) := by
  norm_num [mouseDown, exState, Prod.ext_iff]

/-- C6, amended: a pointer-down over the rectangle starts a drag,
records the event's geo-coordinate as the current point and the former
current point as the previous point; the first drag offset, computed by
the next `mouseMove`, uses the down-event's coordinate (the stale
previous point never enters an offset). -/
theorem mouseDown_starts_drag (s : MinimapState) (p : ℚ × ℚ)
    (h : s.isCursorOverFeature = true) :
    mouseDown s p =
      { s with
          isDragging := true
          previousPoint := s.currentPoint
          currentPoint := p } ∧
    ∀ q : ℚ × ℚ, ∀ over d : Bool,
      (mouseMove (mouseDown s p) q over d).1.bounds =
        clampBounds (translateBounds s.bounds (p.1 - q.1, p.2 - q.2)) := by
  constructor
  · simp [mouseDown, h]
  · intro q over d
    simp [mouseDown, mouseMove, moveTrackingRect, h]

/-- Witness for C6's amended theorem at the idle cursor-over state with
a down at (5,5) and a move to (7,3). -/
theorem mouseDown_starts_drag_witness :
    (exState exBounds false).isCursorOverFeature = true ∧
    (mouseMove (mouseDown (exState exBounds false) (5, 5)) (7, 3) true
        false).1.bounds =
      clampBounds (translateBounds (exState exBounds false).bounds
        (5 - 7, 5 - 3)) :=
  ⟨rfl, (mouseDown_starts_drag (exState exBounds false) (5, 5) rfl).2
    (7, 3) true false⟩

/-- C7: while a drag is in progress, `update` returns the state
unchanged and issues no call to either map. -/
theorem update_noop_while_dragging (s : MinimapState) (pz : ℚ) (pb : Bounds)
    (off : ℚ) (h : s.isDragging = true) :
    update s pz pb off = (s, []) := by
  simp [update, h]

/-- Witness for C7 at a dragging state with primary zoom 5, primary
bounds NE(10,10)/SW(-10,-10) and offset -3. -/
theorem update_noop_while_dragging_witness :
    (exState exBounds true).isDragging = true ∧
    update (exState exBounds true) 5 exBounds (-3) =
      (exState exBounds true, []) :=
  ⟨rfl, update_noop_while_dragging (exState exBounds true) 5 exBounds (-3) rfl⟩

/-- C8: across any pointer-event sequence the drag flag follows the
two-state machine: after one step it is set iff it was set and the event
was not a pointer-up, or the event was a pointer-down with the cursor
over the rectangle; and a run that ends dragging either started dragging
or contained a pointer-down. -/
theorem drag_flag_transitions (d : Bool) (s : MinimapState) (e : PointerEvent)
    (es : List PointerEvent) :
    ((pointerStep d s e).isDragging = true ↔
      (s.isDragging = true ∧ e ≠ PointerEvent.up) ∨
      (s.isCursorOverFeature = true ∧ ∃ p, e = PointerEvent.down p)) ∧
    ((pointerRun d s es).isDragging = true →
      s.isDragging = true ∨ ∃ p, PointerEvent.down p ∈ es) := by
  refine ⟨pointerStep_dragging_iff d s e, ?_⟩
  induction es generalizing s with
  | nil => exact fun h => Or.inl h
  | cons e0 rest ih =>
    intro h
    rcases ih (pointerStep d s e0) h with h1 | ⟨p, hp⟩
    · rcases (pointerStep_dragging_iff d s e0).mp h1 with ⟨hd, _⟩ | ⟨_, p, hp⟩
      · exact Or.inl hd
      · exact Or.inr ⟨p, by simp [hp]⟩
    · exact Or.inr ⟨p, by simp [hp]⟩

/-- Witness for C8 (its second conjunct is an implication): a down-over
then up run starting idle. -/
theorem drag_flag_transitions_witness :
    ((pointerStep false (exState exBounds false)
        (PointerEvent.down (5, 5))).isDragging = true ↔
      ((exState exBounds false).isDragging = true ∧
        PointerEvent.down (5, 5) ≠ PointerEvent.up) ∨
      ((exState exBounds false).isCursorOverFeature = true ∧
        ∃ p, PointerEvent.down (5, 5) = PointerEvent.down p)) ∧
    ((pointerRun false (exState exBounds false)
        [PointerEvent.down (5, 5)]).isDragging = true →
      (exState exBounds false).isDragging = true ∨
        ∃ p, PointerEvent.down p ∈ [PointerEvent.down (5, 5)]) :=
  drag_flag_transitions false (exState exBounds false)
    (PointerEvent.down (5, 5)) [PointerEvent.down (5, 5)]

/-- C9: outside a drag, `update` sets the inset zoom to primary zoom
plus the configured offset, stores the primary bounds and regenerates
the ring from them, pushing both; concretely, primary zoom 5 with
offset -3 gives inset zoom 2, and bounds NE(10,10)/SW(-10,-10) give the
ring (10,10), (-10,10), (-10,-10), (10,-10), (10,10). -/
theorem update_sets_zoom_and_rect (s : MinimapState) (pz : ℚ) (pb : Bounds)
    (off : ℚ) (h : s.isDragging = false) :
    (update s pz pb off).1.insetZoom = pz + off ∧
    (update s pz pb off).1.bounds = pb ∧
    (update s pz pb off).1.polygon = convertBoundsToPoints pb s.polygon ∧
    (update s pz pb off).2 =
      [Effect.setZoom (pz + off),
        Effect.setData (convertBoundsToPoints pb s.polygon) pb] ∧
    (update (exState exBounds false) 5 exBounds (-3)).1.insetZoom = 2 ∧
    (update (exState exBounds false) 5 exBounds (-3)).1.polygon.toList =
      [(10, 10), (-10, 10), (-10, -10), (10, -10), (10, 10)] := by
  refine ⟨?_, ?_, ?_, ?_, ?_, ?_⟩
  · simp [update, h]
  · simp [update, h]
  · simp [update, h]
  · simp [update, h]
  · norm_num [update, exState]
  · norm_num [update, exState, exBounds, convertBoundsToPoints, zeroTrc,
      TrackingCoords.toList]

/-- Witness for C9 at the idle state with primary zoom 5, bounds
NE(10,10)/SW(-10,-10) and offset -3. -/
theorem update_sets_zoom_and_rect_witness :
    (exState exBounds false).isDragging = false ∧
    (update (exState exBounds false) 5 exBounds (-3)).1.insetZoom = 2 :=
  ⟨rfl, (update_sets_zoom_and_rect (exState exBounds false) 5 exBounds (-3)
    rfl).2.2.2.2.1⟩

/-- C10: without a config, `zoomLevelOffset` defaults to -3 and the
seven interaction toggles default to false, so `load` disables all
seven inset handlers; with a config, each present field replaces its
default and each absent field keeps it. -/
theorem options_defaults_and_merge :
    defaultOptions.zoomLevelOffset = -3 ∧
    mergeOptions emptyConfig = defaultOptions ∧
    disabledInteractions (mergeOptions emptyConfig) =
      ["dragPan", "scrollZoom", "boxZoom", "dragRotate", "keyboard",
        "doubleClickZoom", "touchZoomRotate"] ∧
    (∀ cfg : MinimapConfig, ∀ v : ℚ, cfg.zoomLevelOffset = some v →
      (mergeOptions cfg).zoomLevelOffset = v) ∧
    (∀ cfg : MinimapConfig, cfg.zoomLevelOffset = none →
      (mergeOptions cfg).zoomLevelOffset = -3) ∧
    (∀ cfg : MinimapConfig, ∀ v : Bool, cfg.dragPan = some v →
      (mergeOptions cfg).dragPan = v) ∧
    (∀ cfg : MinimapConfig, cfg.dragPan = none →
      (mergeOptions cfg).dragPan = false) ∧
    (∀ cfg : MinimapConfig, ∀ v : Bool, cfg.scrollZoom = some v →
      (mergeOptions cfg).scrollZoom = v) ∧
    (∀ cfg : MinimapConfig, cfg.scrollZoom = none →
      (mergeOptions cfg).scrollZoom = false) ∧
    (∀ cfg : MinimapConfig, ∀ v : Bool, cfg.boxZoom = some v →
      (mergeOptions cfg).boxZoom = v) ∧
    (∀ cfg : MinimapConfig, cfg.boxZoom = none →
      (mergeOptions cfg).boxZoom = false) ∧
    (∀ cfg : MinimapConfig, ∀ v : Bool, cfg.dragRotate = some v →
      (mergeOptions cfg).dragRotate = v) ∧
    (∀ cfg : MinimapConfig, cfg.dragRotate = none →
      (mergeOptions cfg).dragRotate = false) ∧
    (∀ cfg : MinimapConfig, ∀ v : Bool, cfg.keyboard = some v →
      (mergeOptions cfg).keyboard = v) ∧
    (∀ cfg : MinimapConfig, cfg.keyboard = none →
      (mergeOptions cfg).keyboard = false) ∧
    (∀ cfg : MinimapConfig, ∀ v : Bool, cfg.doubleClickZoom = some v →
      (mergeOptions cfg).doubleClickZoom = v) ∧
    (∀ cfg : MinimapConfig, cfg.doubleClickZoom = none →
      (mergeOptions cfg).doubleClickZoom = false) ∧
    (∀ cfg : MinimapConfig, ∀ v : Bool, cfg.touchZoomRotate = some v →
      (mergeOptions cfg).touchZoomRotate = v) ∧
    (∀ cfg : MinimapConfig, cfg.touchZoomRotate = none →
      (mergeOptions cfg).touchZoomRotate = false) := by
  refine ⟨rfl, rfl, rfl, ?_⟩
  repeat' constructor
  all_goals intro cfg
  all_goals first
    | (intro v hv; simp [mergeOptions, hv])
    | (intro hv; simp [mergeOptions, hv, defaultOptions])

/-- Witness for C10's merge conjuncts, at a config that sets
`zoomLevelOffset := -4` and `scrollZoom := true` and leaves the rest
absent. -/
theorem options_defaults_and_merge_witness :
    (mergeOptions cfgEx).zoomLevelOffset = -4 ∧
    (mergeOptions cfgEx).scrollZoom = true ∧
    (mergeOptions cfgEx).dragPan = false :=
  ⟨options_defaults_and_merge.2.2.2.1 cfgEx (-4) rfl,
    options_defaults_and_merge.2.2.2.2.2.2.2.1 cfgEx true rfl,
    options_defaults_and_merge.2.2.2.2.2.2.1 cfgEx rfl⟩

end Minimap
